import Mathlib

/-!
Verification of the Cooling Watchdog risk-window engine
(`cooling_watchdog/risk_analysis.py` together with `cooling_watchdog/Helpers.py`).

The engine is shallowly embedded over plain Lean data:

* timestamps are `Int` seconds (tz-aware instants; the engine only subtracts
  them and floor-divides by 3600, which is representation independent);
* measurements are `Option ℚ` — `none` models a missing value (pandas `NaN`);
  every pandas comparison with `NaN` yields `False`, which the embedding makes
  explicit;
* Python string operations (`split(",")`, `strip()`, `title()`) are modelled
  character-list by character-list with Python's semantics (ASCII scope, which
  covers the engine's fixed trigger vocabulary).
-/

namespace CoolingWatchdog

/-! ### Python string primitives -/

/-- Python `s.split(",")`: split at every comma, keeping empty pieces;
the empty string yields `[""]`. -/
def splitComma : List Char → List (List Char)
  | [] => [[]]
  | c :: cs =>
    if c = ',' then [] :: splitComma cs
    else
      match splitComma cs with
      | [] => [[c]]
      | t :: ts => (c :: t) :: ts

/-- The whitespace characters Python `str.strip()` removes (ASCII scope). -/
def isPySpace (c : Char) : Bool :=
  c = ' ' || c = '\t' || c = '\n' || c = '\r' || c = '\x0b' || c = '\x0c'

/-- Python `s.strip()`: drop leading and trailing whitespace. -/
def pyStrip (l : List Char) : List Char :=
  ((l.dropWhile isPySpace).reverse.dropWhile isPySpace).reverse

/-- Worker for `pyTitle`; the flag records whether the previous character was
alphabetic. -/
def pyTitleGo : Bool → List Char → List Char
  | _, [] => []
  | prevAlpha, c :: cs =>
    if c.isAlpha then
      (if prevAlpha then c.toLower else c.toUpper) :: pyTitleGo true cs
    else
      c :: pyTitleGo false cs

/-- Python `s.title()` (ASCII scope): the first letter of each alphabetic run
is upper-cased, the rest lower-cased. -/
def pyTitle (l : List Char) : List Char := pyTitleGo false l

/-- `", ".join(...)`. -/
def joinCommaSpace : List (List Char) → List Char
  | [] => []
  | [x] => x
  | x :: y :: rest => x ++ [',', ' '] ++ joinCommaSpace (y :: rest)

/-- The comma-separated tokens of a trigger string after stripping, with empty
tokens removed: `[t.strip() for t in s.split(",") if t.strip()]`. -/
def pyTokens (l : List Char) : List (List Char) :=
  ((splitComma l).map pyStrip).filter (fun t => decide (t ≠ []))

/-- The stripped, title-cased tokens of a trigger string — the elements of the
set comprehension `{t.strip().title() for t in s.split(",") if t.strip()}`. -/
def titledTokens (s : String) : List (List Char) :=
  (pyTokens s.data).map pyTitle

/-- `allowed = {"Temperature", "Wind", "Humidity"}`, listed in the alphabetical
order `sorted` produces ("Humidity" < "Temperature" < "Wind"). -/
def allowedL : List (List Char) :=
  ["Humidity".data, "Temperature".data, "Wind".data]

/-- Membership test for a token among a list of tokens (Python `in`). -/
def memCL : List Char → List (List Char) → Bool
  | _, [] => false
  | x, y :: ys => decide (x = y) || memCL x ys

/-! ### `Helpers.py` / `risk_analysis.py`: trigger normalisation and scoring -/

/-- `window_triggers_label_from_str` (Helpers.py lines 1–15, risk_analysis.py
lines 187–193): split on commas, strip, drop empty tokens, title-case,
deduplicate (set), intersect with the allowed vocabulary, sort alphabetically
and join with `", "`.  `sorted(uniq & allowed)` is exactly the sublist of the
alphabetically ordered `allowedL` whose elements occur among the titled
tokens, which is how the result is computed here. -/
def window_triggers_label_from_str (s : String) : String :=
  if s = "" then ""
  else ⟨joinCommaSpace (allowedL.filter (fun a => memCL a (titledTokens s)))⟩

/-- `risk_score_simple` (Helpers.py lines 17–25, risk_analysis.py lines
195–201): `min(3, len(uniq & allowed))`, with `uniq` the deduplicated titled
tokens, and `0` for the empty string. -/
def risk_score_simple (s : String) : Nat :=
  if s = "" then 0
  else min 3 (((titledTokens s).dedup.filter (fun t => memCL t allowedL)).length)

/-- The number of distinct recognised trigger types (members of the fixed
vocabulary) occurring in a trigger string — the quantity the specification
scores by.  `allowedL` has no duplicates, so this counts distinct types. -/
def recognizedCount (s : String) : Nat :=
  (allowedL.filter (fun a => memCL a (titledTokens s))).length

/-- The canonical label determined by which of the three trigger types are
present; every output of `window_triggers_label_from_str` has this shape. -/
def canonLabel (h t w : Bool) : String :=
  ⟨joinCommaSpace (cond h ["Humidity".data] [] ++
    cond t ["Temperature".data] [] ++ cond w ["Wind".data] [])⟩

/-! ### Data model

`HourlyReading` rows as they reach the engine (`weather.py` builds the frame
straight from the API arrays; nothing upstream removes rows with missing
measurements).  `time` is an instant in seconds; measurements are `Option ℚ`
with `none` for `NaN`. -/

structure HourRow where
  time : Int
  temp : Option ℚ
  wind : Option ℚ
  rh : Option ℚ
deriving DecidableEq, Repr

/-- Per-site thresholds (`max_temp_f`, `max_wind_mph`,
`min_relative_humidity_pct`), as read from the configuration. -/
structure Thresholds where
  max_temp_f : ℚ
  max_wind_mph : ℚ
  min_relative_humidity_pct : ℚ
deriving DecidableEq, Repr

/-- One row of the flagged hourly frame produced by `attach_risk_flags`
(the `temp_threshold`/`wind_threshold`/`humidity_threshold` and `risk_group`
columns it also assigns are never read by `analyze_risk_windows`, which
recomputes its own grouping, so they are not modelled). -/
structure FlaggedRow where
  site_name : String
  time : Int
  temp : Option ℚ
  wind : Option ℚ
  rh : Option ℚ
  temperature_risk : Bool
  wind_risk : Bool
  humidity_risk : Bool
  any_risk : Bool
  risk_triggers : String
deriving DecidableEq, Repr

/-- pandas `series >= threshold`: `False` whenever the value is `NaN`. -/
def naGe (v : Option ℚ) (t : ℚ) : Bool :=
  match v with
  | none => false
  | some x => decide (t ≤ x)

/-- pandas `series <= threshold`: `False` whenever the value is `NaN`. -/
def naLe (v : Option ℚ) (t : ℚ) : Bool :=
  match v with
  | none => false
  | some x => decide (x ≤ t)

/-- The per-hour label `", ".join([k for k, v in {"Temperature": tr, "Wind":
wr, "Humidity": hr}.items() if v])` — dict insertion order. -/
def hourTriggerLabel (tr wr hr : Bool) : String :=
  ⟨joinCommaSpace ((if tr then ["Temperature".data] else []) ++
    (if wr then ["Wind".data] else []) ++
    (if hr then ["Humidity".data] else []))⟩

/-- The per-row content of `attach_risk_flags`: `>=` for temperature and
wind, `<=` for humidity, `any_risk` the disjunction, and the hourly label. -/
def flagRow (site_name : String) (th : Thresholds) (r : HourRow) : FlaggedRow :=
  let tr := naGe r.temp th.max_temp_f
  let wr := naGe r.wind th.max_wind_mph
  let hr := naLe r.rh th.min_relative_humidity_pct
  { site_name := site_name, time := r.time, temp := r.temp, wind := r.wind,
    rh := r.rh, temperature_risk := tr, wind_risk := wr,
    humidity_risk := hr, any_risk := tr || wr || hr,
    risk_triggers := hourTriggerLabel tr wr hr }

/-- `attach_risk_flags` (risk_analysis.py lines 203–237): the column-wise
pandas operations amount to applying `flagRow` to every row; no row is ever
dropped or added. -/
def attach_risk_flags (rows : List HourRow) (site_name : String)
    (th : Thresholds) : List FlaggedRow :=
  rows.map (flagRow site_name th)

/-! ### Window construction (`analyze_risk_windows`, lines 390–428) -/

/-- Python string comparison, lexicographic by code point. -/
def charListLt : List Char → List Char → Bool
  | _, [] => false
  | [], _ :: _ => true
  | a :: as, b :: bs =>
    if a.val < b.val then true
    else if b.val < a.val then false
    else charListLt as bs

/-- `a < b` for Python strings. -/
def strLt (a b : String) : Bool := charListLt a.data b.data

/-- `a <= b` for Python strings. -/
def strLe (a b : String) : Bool := strLt a b || decide (a = b)

/-- `sort_values(["site_name", "Time"])`: ascending lexicographic order on
(site, time); Python compares strings by code points. -/
def rowLEP (a b : FlaggedRow) : Prop :=
  strLt a.site_name b.site_name = true ∨
    (a.site_name = b.site_name ∧ a.time ≤ b.time)

instance : DecidableRel rowLEP := fun a b =>
  inferInstanceAs (Decidable (strLt a.site_name b.site_name = true ∨
    (a.site_name = b.site_name ∧ a.time ≤ b.time)))

/-- A flagged row together with its `site_block` and `risk_group_toggle`
cumulative-sum values. -/
structure Tagged where
  row : FlaggedRow
  site_block : Nat
  risk_group_toggle : Nat
deriving DecidableEq, Repr

/-- The two `cumsum` columns of lines 401–402: `site_block` counts changes of
`site_name` against the previous row, `risk_group_toggle` counts changes of
`any_risk`; the first row always differs from the `shift()`ed `NaN`, so both
counters start at 1. -/
def cumGroups : Option String → Option Bool → Nat → Nat → List FlaggedRow →
    List Tagged
  | _, _, _, _, [] => []
  | prevSite, prevAny, sb, tg, r :: rs =>
    let sb' := if prevSite = some r.site_name then sb else sb + 1
    let tg' := if prevAny = some r.any_risk then tg else tg + 1
    ⟨r, sb', tg'⟩ :: cumGroups (some r.site_name) (some r.any_risk) sb' tg' rs

def tagRows (l : List FlaggedRow) : List Tagged :=
  cumGroups none none 0 0 l

/-- The `groupby` key of line 406: `(site_name, window_group)` with
`window_group = f"{site_block}_{risk_group_toggle}"`; the string encoding of
the two counters is injective, so the pair is kept unencoded. -/
def keyOf (x : Tagged) : String × Nat × Nat :=
  (x.row.site_name, x.site_block, x.risk_group_toggle)

/-- The distinct group keys, in first-appearance order. -/
def windowKeys (l : List Tagged) : List (String × Nat × Nat) :=
  (l.map keyOf).dedup

/-- pandas `groupby`: each distinct key with the rows carrying it, keeping the
rows' original (time-sorted) order inside every group.  pandas lists groups in
sorted key order and the caller then re-sorts the summary by
`(site_name, start_time)`; that final order is produced by the sort in
`build_summary` below, so the intermediate group order is immaterial. -/
def window_groups (l : List Tagged) : List ((String × Nat × Nat) × List Tagged) :=
  (windowKeys l).map (fun k => (k, l.filter (fun x => decide (keyOf x = k))))

/-- One row of the window `summary` frame. -/
structure WindowRow where
  site_name : String
  start_time : Int
  end_time : Int
  duration_h : Int
  peak_temp_f : Option ℚ
  peak_wind_mph : Option ℚ
  min_rh_pct : Option ℚ
  triggers : String
  risk_score : Nat
deriving DecidableEq, Repr

/-- pandas `max` over a column: skips `NaN`, `NaN` when the group is all
`NaN`. -/
def optMax (l : List (Option ℚ)) : Option ℚ :=
  l.foldl (fun acc v =>
    match acc, v with
    | none, v => v
    | acc, none => acc
    | some a, some b => some (max a b)) none

/-- pandas `min` over a column: skips `NaN`, `NaN` when the group is all
`NaN`. -/
def optMin (l : List (Option ℚ)) : Option ℚ :=
  l.foldl (fun acc v =>
    match acc, v with
    | none, v => v
    | acc, none => acc
    | some a, some b => some (min a b)) none

/-- The aggregation of lines 405–425 applied to one group: `start_time` /
`end_time` are the min/max timestamp, `duration_h` is
`int((max - min).total_seconds() // 3600 + 1)` (Python `//` is floor
division, `Int.fdiv` here), peaks and trough aggregate the group's own rows,
`triggers_raw` joins the hourly labels in row order and is then normalised
and scored.  The `[]` case never arises (every key has at least one row). -/
def aggWindow (k : String × Nat × Nat) : List Tagged → WindowRow
  | [] =>
    { site_name := k.1, start_time := 0, end_time := 0, duration_h := 1,
      peak_temp_f := none, peak_wind_mph := none, min_rh_pct := none,
      triggers := window_triggers_label_from_str "",
      risk_score := risk_score_simple (window_triggers_label_from_str "") }
  | x :: xs =>
    let startT := (xs.map (fun r => r.row.time)).foldl min x.row.time
    let endT := (xs.map (fun r => r.row.time)).foldl max x.row.time
    let raw : String :=
      ⟨joinCommaSpace ((x :: xs).map (fun r => r.row.risk_triggers.data))⟩
    let trig := window_triggers_label_from_str raw
    { site_name := k.1, start_time := startT, end_time := endT,
      duration_h := (endT - startT).fdiv 3600 + 1,
      peak_temp_f := optMax ((x :: xs).map (fun r => r.row.temp)),
      peak_wind_mph := optMax ((x :: xs).map (fun r => r.row.wind)),
      min_rh_pct := optMin ((x :: xs).map (fun r => r.row.rh)),
      triggers := trig, risk_score := risk_score_simple trig }

/-- The final `sort_values(["site_name", "start_time"])` order of the summary
frame. -/
def windowLEP (a b : WindowRow) : Prop :=
  strLt a.site_name b.site_name = true ∨
    (a.site_name = b.site_name ∧ a.start_time ≤ b.start_time)

instance : DecidableRel windowLEP := fun a b =>
  inferInstanceAs (Decidable (strLt a.site_name b.site_name = true ∨
    (a.site_name = b.site_name ∧ a.start_time ≤ b.start_time)))

/-- `risk_only` filtered and sorted (lines 390 and 400). -/
def risk_only_sorted (combined : List FlaggedRow) : List FlaggedRow :=
  List.insertionSort rowLEP (combined.filter (fun r => r.any_risk))

/-- The groups that become windows (lines 400–406). -/
def summary_groups (combined : List FlaggedRow) :
    List ((String × Nat × Nat) × List Tagged) :=
  window_groups (tagRows (risk_only_sorted combined))

/-- The window `summary` of `analyze_risk_windows` (lines 390–428): when no
row has `any_risk` the summary is empty, otherwise group, aggregate and sort
by `(site_name, start_time)`.  Timestamps are total, so the
`dropna(subset=["start_time", "end_time"])` safety net never removes a row. -/
def build_summary (combined : List FlaggedRow) : List WindowRow :=
  List.insertionSort windowLEP
    ((summary_groups combined).map (fun g => aggWindow g.1 g.2))

/-! ### Snapshot (`risk_now`, lines 454–468) and orchestration -/

/-- One row of the `risk_now` table. -/
structure SnapRow where
  site : String
  risk_score : Nat
  next_window_start : Option Int
  starts_in_h : Option Int
deriving DecidableEq, Repr

def startLEP (a b : WindowRow) : Prop :=
  a.start_time ≤ b.start_time

instance : DecidableRel startLEP := fun a b =>
  inferInstanceAs (Decidable (a.start_time ≤ b.start_time))

instance : IsTotal WindowRow startLEP :=
  ⟨fun a b => Int.le_total a.start_time b.start_time⟩

instance : IsTrans WindowRow startLEP :=
  ⟨fun _ _ _ hab hbc => le_trans hab hbc⟩

/-- The snapshot loop of lines 454–468: iterate the summary's sites in sorted
order (`groupby("site_name")`), sort that site's windows by `start_time`, take
the first and report its score, its start and
`max(0, int((start - now).total_seconds() // 3600))`.  `groupby` never yields
an empty group, but the code's guard for that case is kept.  pandas
`sort_values` is an unstable sort, so on equal `start_time`s the selected
window is implementation-defined; the stable sort here is one
determinisation of that choice. -/
def risk_now_rows (summary : List WindowRow) (now : Int) : List SnapRow :=
  (List.insertionSort (fun a b : String => strLe a b = true)
      ((summary.map (fun w => w.site_name)).dedup)).map fun site =>
    match List.insertionSort startLEP
        (summary.filter (fun w => decide (w.site_name = site))) with
    | [] => ⟨site, 0, none, none⟩
    | w :: _ =>
      ⟨site, w.risk_score, some w.start_time,
        some (max 0 ((w.start_time - now).fdiv 3600))⟩

/-- One site's input to the orchestrator: its name, thresholds and the
already-fetched hourly readings (the excluded fetch collaborator's output;
`[]` models "no forecast slice available"). -/
structure SiteInput where
  site_name : String
  readings : List HourRow
  thresholds : Thresholds
deriving DecidableEq, Repr

/-- The per-site loop plus windowing plus snapshot of `analyze_risk_windows`
(lines 368–468): a site with an empty reading series is skipped (`continue`),
the remaining flagged frames are concatenated, windows are built and the
`risk_now` rows derived.  The DB writers and the Excel export only serialise
these three results. -/
def analyze_risk_windows (sites : List SiteInput) (now : Int) :
    List FlaggedRow × List WindowRow × List SnapRow :=
  let flagged := (sites.filter (fun s => decide (s.readings ≠ []))).map
    (fun s => attach_risk_flags s.readings s.site_name s.thresholds)
  let combined := flagged.flatten
  let summary := build_summary combined
  (combined, summary, risk_now_rows summary now)

/-! ### Lemmas about trigger normalisation and scoring -/

lemma memCL_iff (x : List Char) (l : List (List Char)) :
    memCL x l = true ↔ x ∈ l := by
  induction l with
  | nil => simp [memCL]
  | cons y ys ih => simp [memCL, ih]

lemma filter_allowed_titled (s : String) :
    allowedL.filter (fun a => memCL a (titledTokens s)) =
      cond (memCL "Humidity".data (titledTokens s)) ["Humidity".data] [] ++
      cond (memCL "Temperature".data (titledTokens s)) ["Temperature".data] [] ++
      cond (memCL "Wind".data (titledTokens s)) ["Wind".data] [] := by
  cases hH : memCL "Humidity".data (titledTokens s) <;>
  cases hT : memCL "Temperature".data (titledTokens s) <;>
  cases hW : memCL "Wind".data (titledTokens s) <;>
  simp [allowedL, List.filter, hH, hT, hW]

lemma wtl_eq_canon (s : String) (hs : s ≠ "") :
    window_triggers_label_from_str s =
      canonLabel (memCL "Humidity".data (titledTokens s))
        (memCL "Temperature".data (titledTokens s))
        (memCL "Wind".data (titledTokens s)) := by
  unfold window_triggers_label_from_str canonLabel
  rw [if_neg hs, filter_allowed_titled]

lemma wtl_canon_fix (h t w : Bool) :
    window_triggers_label_from_str (canonLabel h t w) = canonLabel h t w := by
  cases h <;> cases t <;> cases w <;> decide

lemma length_dedup_filter_mem (A L : List (List Char)) (hA : A.Nodup) :
    ((L.dedup.filter (fun t => memCL t A)).length =
      (A.filter (fun a => memCL a L)).length) := by
  have h1 : (L.dedup.filter (fun t => memCL t A)).Nodup :=
    (List.nodup_dedup L).filter _
  have h2 : (A.filter (fun a => memCL a L)).Nodup := hA.filter _
  rw [← List.toFinset_card_of_nodup h1, ← List.toFinset_card_of_nodup h2]
  congr 1
  ext x
  simp [List.mem_filter, List.mem_dedup, memCL_iff, and_comm]

lemma score_eq (s : String) :
    risk_score_simple s = min 3 (recognizedCount s) := by
  by_cases hs : s = ""
  · subst hs; decide
  · unfold risk_score_simple recognizedCount
    rw [if_neg hs]
    congr 1
    exact length_dedup_filter_mem allowedL (titledTokens s) (by decide)

lemma recognizedCount_eq_sum (s : String) :
    recognizedCount s =
      cond (memCL "Humidity".data (titledTokens s)) 1 0 +
      cond (memCL "Temperature".data (titledTokens s)) 1 0 +
      cond (memCL "Wind".data (titledTokens s)) 1 0 := by
  unfold recognizedCount
  rw [filter_allowed_titled]
  cases memCL "Humidity".data (titledTokens s) <;>
  cases memCL "Temperature".data (titledTokens s) <;>
  cases memCL "Wind".data (titledTokens s) <;>
  simp

lemma recognizedCount_canon (h t w : Bool) :
    recognizedCount (canonLabel h t w) = cond h 1 0 + cond t 1 0 + cond w 1 0 := by
  cases h <;> cases t <;> cases w <;> decide

lemma score_norm (s : String) :
    risk_score_simple (window_triggers_label_from_str s) = risk_score_simple s := by
  by_cases hs : s = ""
  · subst hs; rfl
  · rw [wtl_eq_canon s hs, score_eq, score_eq, recognizedCount_canon,
      recognizedCount_eq_sum]

/-! ### Claim theorems: normalisation and scoring -/

/-- C4: trigger-label normalisation (split on commas, strip whitespace,
title-case, restrict to the vocabulary {Temperature, Wind, Humidity},
deduplicate, sort alphabetically, join with ", ") is idempotent:
normalising twice equals normalising once, for every input string. -/
theorem c4_normalize_idempotent (x : String) :
    window_triggers_label_from_str (window_triggers_label_from_str x) =
      window_triggers_label_from_str x := by
  by_cases hx : x = ""
  · subst hx; rfl
  · rw [wtl_eq_canon x hx, wtl_canon_fix]

/-- C5: for every trigger string, `risk_score_simple` equals
`min(3, number of distinct recognised trigger types)`; the enumerated values
are 0, 1, 2, 3 for zero to three distinct triggers, and the score is monotone
in the number of distinct recognised triggers. -/
theorem c5_risk_score_counts :
    (∀ s : String, risk_score_simple s = min 3 (recognizedCount s)) ∧
    risk_score_simple "" = 0 ∧
    risk_score_simple "Temperature" = 1 ∧
    risk_score_simple "Temperature, Wind" = 2 ∧
    risk_score_simple "Humidity, Temperature, Wind" = 3 ∧
    (∀ s u : String, recognizedCount s ≤ recognizedCount u →
      risk_score_simple s ≤ risk_score_simple u) := by
  refine ⟨score_eq, by decide, by decide, by decide, by decide, ?_⟩
  intro s u h
  rw [score_eq, score_eq]
  exact min_le_min (le_refl 3) h

/-- Witness for C5 at concrete inputs. -/
theorem c5_risk_score_counts_witness :
    recognizedCount "Temperature" ≤ recognizedCount "Temperature, Wind" ∧
    risk_score_simple "Temperature" ≤ risk_score_simple "Temperature, Wind" :=
  ⟨by decide,
    c5_risk_score_counts.2.2.2.2.2 "Temperature" "Temperature, Wind" (by decide)⟩

/-- C10: normalising a trigger label never changes its risk score, and both
scores lie between 0 and 3 (scores are natural numbers, hence nonnegative). -/
theorem c10_score_normalize_invariant (x : String) :
    risk_score_simple (window_triggers_label_from_str x) = risk_score_simple x ∧
    risk_score_simple x ≤ 3 ∧
    risk_score_simple (window_triggers_label_from_str x) ≤ 3 := by
  refine ⟨score_norm x, ?_, ?_⟩
  · rw [score_eq]
    exact min_le_left _ _
  · rw [score_norm x, score_eq]
    exact min_le_left _ _

/-! ### Claim theorems: threshold evaluator -/

/-- C3: every row the evaluator emits has `temperature_breach` iff
`temperature ≥ max_temperature`, `wind_breach` iff `wind ≥ max_wind_speed`,
`humidity_breach` iff `humidity ≤ min_relative_humidity` (low-humidity
condition), and `any_breach` is the disjunction of the three flags. -/
theorem c3_breach_flags (rows : List HourRow) (site : String) (th : Thresholds)
    (fr : FlaggedRow) (hfr : fr ∈ attach_risk_flags rows site th) :
    fr.any_risk = (fr.temperature_risk || fr.wind_risk || fr.humidity_risk) ∧
    (∀ t, fr.temp = some t → (fr.temperature_risk = true ↔ th.max_temp_f ≤ t)) ∧
    (∀ w, fr.wind = some w → (fr.wind_risk = true ↔ th.max_wind_mph ≤ w)) ∧
    (∀ h, fr.rh = some h →
      (fr.humidity_risk = true ↔ h ≤ th.min_relative_humidity_pct)) := by
  obtain ⟨r, hr, rfl⟩ := List.mem_map.mp hfr
  refine ⟨rfl, ?_, ?_, ?_⟩
  · intro t ht
    simp only [flagRow] at ht ⊢
    rw [ht]
    simp [naGe]
  · intro w hw
    simp only [flagRow] at hw ⊢
    rw [hw]
    simp [naGe]
  · intro h hh
    simp only [flagRow] at hh ⊢
    rw [hh]
    simp [naLe]

/-- Witness for C3 at a concrete breaching reading. -/
theorem c3_breach_flags_witness :
    (⟨"A", 0, some 101, some 5, some 30, true, false, false, true,
        "Temperature"⟩ : FlaggedRow) ∈
      attach_risk_flags [⟨0, some 101, some 5, some 30⟩] "A" ⟨100, 20, 15⟩ ∧
    ((⟨"A", 0, some 101, some 5, some 30, true, false, false, true,
        "Temperature"⟩ : FlaggedRow).temperature_risk = true ↔
      (100 : ℚ) ≤ 101) :=
  ⟨by decide,
    (c3_breach_flags [⟨0, some 101, some 5, some 30⟩] "A" ⟨100, 20, 15⟩
      ⟨"A", 0, some 101, some 5, some 30, true, false, false, true,
        "Temperature"⟩ (by decide)).2.1 101 rfl⟩

/-- C8 counterexample: a reading whose temperature is missing is not
excluded from the evaluator's output — it is emitted with all breach flags
`false` (pandas comparisons against `NaN` are `False`), the opposite of the
claimed behaviour. -/
theorem c8_missing_field_not_dropped :
    attach_risk_flags [⟨0, none, some 5, some 50⟩] "A" ⟨100, 20, 15⟩ =
      [⟨"A", 0, none, some 5, some 50, false, false, false, false, ""⟩] ∧
    attach_risk_flags [⟨0, none, some 5, some 50⟩] "A" ⟨100, 20, 15⟩ ≠ [] := by
  constructor
  · decide
  · decide

/-- C8 (amended): a reading with a missing measurement is kept, not dropped:
the evaluator emits exactly one output row per input row, and a missing
field makes the corresponding breach flag `false`. -/
theorem c8_missing_field_zero_filled (rows : List HourRow) (site : String)
    (th : Thresholds) :
    (attach_risk_flags rows site th).length = rows.length ∧
    ∀ fr ∈ attach_risk_flags rows site th,
      (fr.temp = none → fr.temperature_risk = false) ∧
      (fr.wind = none → fr.wind_risk = false) ∧
      (fr.rh = none → fr.humidity_risk = false) := by
  refine ⟨List.length_map rows _, ?_⟩
  intro fr hfr
  obtain ⟨r, hr, rfl⟩ := List.mem_map.mp hfr
  refine ⟨?_, ?_, ?_⟩ <;> intro hv <;> simp only [flagRow] at hv ⊢ <;>
    rw [hv] <;> rfl

/-- Witness for C8 (amended) at a concrete reading with a missing
temperature. -/
theorem c8_missing_field_zero_filled_witness :
    (attach_risk_flags [⟨0, none, some 5, some 50⟩] "B" ⟨100, 20, 15⟩).length =
      ([⟨0, none, some 5, some 50⟩] : List HourRow).length ∧
    (⟨"B", 0, none, some 5, some 50, false, false, false, false,
        ""⟩ : FlaggedRow).temperature_risk = false :=
  ⟨(c8_missing_field_zero_filled [⟨0, none, some 5, some 50⟩] "B"
      ⟨100, 20, 15⟩).1,
    ((c8_missing_field_zero_filled [⟨0, none, some 5, some 50⟩] "B"
      ⟨100, 20, 15⟩).2 ⟨"B", 0, none, some 5, some 50, false, false, false,
        false, ""⟩ (by decide)).1 rfl⟩

/-! ### Lemmas about window aggregation -/

lemma aggWindow_site (k : String × Nat × Nat) (rows : List Tagged) :
    (aggWindow k rows).site_name = k.1 := by
  cases rows <;> rfl

lemma aggWindow_cons_fields (k : String × Nat × Nat) (x : Tagged)
    (xs : List Tagged) :
    (aggWindow k (x :: xs)).start_time =
      (xs.map (fun r => r.row.time)).foldl min x.row.time ∧
    (aggWindow k (x :: xs)).end_time =
      (xs.map (fun r => r.row.time)).foldl max x.row.time ∧
    (aggWindow k (x :: xs)).duration_h =
      ((xs.map (fun r => r.row.time)).foldl max x.row.time -
        (xs.map (fun r => r.row.time)).foldl min x.row.time).fdiv 3600 + 1 :=
  ⟨rfl, rfl, rfl⟩

/-! ### Claim theorems: window duration and site confinement -/

/-- C6: every window in the summary has
`duration_hours = floor((end_time − start_time) / 3600) + 1` (an inclusive
hour count), and a window whose start equals its end has duration exactly 1,
not 0. -/
theorem c6_inclusive_duration (combined : List FlaggedRow) (w : WindowRow)
    (hw : w ∈ build_summary combined) :
    w.duration_h = (w.end_time - w.start_time).fdiv 3600 + 1 ∧
    (w.start_time = w.end_time → w.duration_h = 1) := by
  have hw2 : w ∈ (summary_groups combined).map (fun g => aggWindow g.1 g.2) := by
    unfold build_summary at hw
    exact (List.mem_insertionSort windowLEP).mp hw
  obtain ⟨g, hg, rfl⟩ := List.mem_map.mp hw2
  rcases g with ⟨k, rows⟩
  cases rows with
  | nil => exact ⟨rfl, fun _ => rfl⟩
  | cons x xs =>
    obtain ⟨h1, h2, h3⟩ := aggWindow_cons_fields k x xs
    constructor
    · rw [h3, h2, h1]
    · intro hse
      rw [h1, h2] at hse
      rw [h3, ← hse, sub_self]
      decide

/-- Witness for C6 on a two-hour window. -/
theorem c6_inclusive_duration_witness :
    (⟨"A", 0, 3600, 2, some 101, some 5, some 30, "Temperature",
        1⟩ : WindowRow) ∈
      build_summary (attach_risk_flags
        [⟨0, some 101, some 5, some 30⟩, ⟨3600, some 101, some 5, some 30⟩]
        "A" ⟨100, 20, 15⟩) ∧
    (⟨"A", 0, 3600, 2, some 101, some 5, some 30, "Temperature",
        1⟩ : WindowRow).duration_h =
      ((⟨"A", 0, 3600, 2, some 101, some 5, some 30, "Temperature",
        1⟩ : WindowRow).end_time -
        (⟨"A", 0, 3600, 2, some 101, some 5, some 30, "Temperature",
        1⟩ : WindowRow).start_time).fdiv 3600 + 1 :=
  ⟨by decide,
    (c6_inclusive_duration (attach_risk_flags
        [⟨0, some 101, some 5, some 30⟩, ⟨3600, some 101, some 5, some 30⟩]
        "A" ⟨100, 20, 15⟩)
      ⟨"A", 0, 3600, 2, some 101, some 5, some 30, "Temperature", 1⟩
      (by decide)).1⟩

/-- C7: segmentation never mixes sites — every group that becomes a window
carries the site of its grouping key, and all of its constituent hours have
exactly that site. -/
theorem c7_no_cross_site_windows (combined : List FlaggedRow)
    (g : (String × Nat × Nat) × List Tagged)
    (hg : g ∈ summary_groups combined) :
    (aggWindow g.1 g.2).site_name = g.1.1 ∧
    ∀ x ∈ g.2, x.row.site_name = g.1.1 := by
  unfold summary_groups window_groups at hg
  obtain ⟨k, hk, rfl⟩ := List.mem_map.mp hg
  refine ⟨aggWindow_site k _, ?_⟩
  intro x hx
  have hmem := List.mem_filter.mp hx
  have hkey : keyOf x = k := of_decide_eq_true hmem.2
  rw [← hkey]
  rfl

/-- Witness for C7 on a concrete two-site series. -/
theorem c7_no_cross_site_windows_witness :
    ((("A", 1, 1),
        [(⟨⟨"A", 0, some 101, some 5, some 30, true, false, false, true,
          "Temperature"⟩, 1, 1⟩ : Tagged)]) ∈
      summary_groups
        (attach_risk_flags [⟨0, some 101, some 5, some 30⟩] "B" ⟨100, 20, 15⟩ ++
          attach_risk_flags [⟨0, some 101, some 5, some 30⟩] "A"
            ⟨100, 20, 15⟩)) ∧
    (⟨⟨"A", 0, some 101, some 5, some 30, true, false, false, true,
        "Temperature"⟩, 1, 1⟩ : Tagged).row.site_name = "A" :=
  ⟨by decide,
    (c7_no_cross_site_windows
      (attach_risk_flags [⟨0, some 101, some 5, some 30⟩] "B" ⟨100, 20, 15⟩ ++
        attach_risk_flags [⟨0, some 101, some 5, some 30⟩] "A" ⟨100, 20, 15⟩)
      (("A", 1, 1),
        [⟨⟨"A", 0, some 101, some 5, some 30, true, false, false, true,
          "Temperature"⟩, 1, 1⟩])
      (by decide)).2
      ⟨⟨"A", 0, some 101, some 5, some 30, true, false, false, true,
        "Temperature"⟩, 1, 1⟩ (by decide)⟩

/-! ### Claim theorems: segmentation bug, snapshot, orchestration -/

/-- C1: evaluation of the segmenter at a breach / non-breach / breach series.
The hour at time 3600 has `any_breach = false`, yet the code produces a
single window `[0, 7200]` of duration 3 spanning that gap — the toggle of
line 402 is computed on the already-filtered frame, where `any_risk` is
constantly `true`, so it never increments.  The claim (maximal contiguous
runs, no gap ever spanned) requires the two single-hour windows `[0, 0]` and
`[7200, 7200]` here. -/
theorem c1_gap_spanning_window :
    (attach_risk_flags
        [⟨0, some 101, some 5, some 30⟩, ⟨3600, some 50, some 5, some 30⟩,
          ⟨7200, some 101, some 5, some 30⟩] "A" ⟨100, 20, 15⟩).map
      (fun r => (r.time, r.any_risk)) =
        [(0, true), (3600, false), (7200, true)] ∧
    build_summary (attach_risk_flags
        [⟨0, some 101, some 5, some 30⟩, ⟨3600, some 50, some 5, some 30⟩,
          ⟨7200, some 101, some 5, some 30⟩] "A" ⟨100, 20, 15⟩) =
      [⟨"A", 0, 7200, 3, some 101, some 5, some 30, "Temperature", 1⟩] := by
  constructor
  · decide
  · decide

/-- C2 counterexample: a site with a fully past window `[0, 3600]` and an
upcoming window starting at 100000, with `now = 50000`.  The claim selects
the upcoming window (score 2, `next_window_start = 100000`,
`hours_until_start = 13`); the code reports the past window (score 1, start
0, clamped to 0 hours), because lines 454–468 always take the window with
the smallest `start_time` regardless of its relation to "now". -/
theorem c2_past_window_wins_counterexample :
    risk_now_rows
      [⟨"A", 0, 3600, 2, none, none, none, "Temperature", 1⟩,
        ⟨"A", 100000, 103600, 2, none, none, none, "Humidity, Temperature", 2⟩]
      50000 = [⟨"A", 1, some 0, some 0⟩] ∧
    risk_now_rows
      [⟨"A", 0, 3600, 2, none, none, none, "Temperature", 1⟩,
        ⟨"A", 100000, 103600, 2, none, none, none, "Humidity, Temperature", 2⟩]
      50000 ≠ [⟨"A", 2, some 100000, some 13⟩] := by
  constructor
  · decide
  · decide

/-- C2 (amended): for every site appearing in the snapshot table, the
reported window is the one with the smallest `start_time` among that site's
windows — regardless of whether it is past, active or upcoming — and the
snapshot carries its score, its start, and
`max(0, floor((start_time − now) / 3600))`; a neutral snapshot is never
produced for a site that has windows. -/
theorem c2_earliest_start_selected (summary : List WindowRow) (now : Int)
    (s : SnapRow) (hs : s ∈ risk_now_rows summary now) :
    ∃ w, w ∈ summary ∧ w.site_name = s.site ∧
      (∀ w2 ∈ summary, w2.site_name = s.site → w.start_time ≤ w2.start_time) ∧
      s.risk_score = w.risk_score ∧
      s.next_window_start = some w.start_time ∧
      s.starts_in_h = some (max 0 ((w.start_time - now).fdiv 3600)) := by
  unfold risk_now_rows at hs
  obtain ⟨site, hsite, rfl⟩ := List.mem_map.mp hs
  have hsite3 : site ∈ summary.map (fun w => w.site_name) :=
    List.mem_dedup.mp ((List.mem_insertionSort _).mp hsite)
  obtain ⟨w0, hw0, hw0site⟩ := List.mem_map.mp hsite3
  have hw0f : w0 ∈ summary.filter (fun w => decide (w.site_name = site)) :=
    List.mem_filter.mpr ⟨hw0, decide_eq_true hw0site⟩
  cases hsort : List.insertionSort startLEP
      (summary.filter (fun w => decide (w.site_name = site))) with
  | nil =>
    exfalso
    have hmem : w0 ∈ List.insertionSort startLEP
        (summary.filter (fun w => decide (w.site_name = site))) :=
      (List.mem_insertionSort _).mpr hw0f
    rw [hsort] at hmem
    exact absurd hmem (List.not_mem_nil w0)
  | cons w rest =>
    have hwf : w ∈ summary.filter (fun w2 => decide (w2.site_name = site)) := by
      have hmem : w ∈ List.insertionSort startLEP
          (summary.filter (fun w2 => decide (w2.site_name = site))) := by
        rw [hsort]
        exact List.mem_cons_self w rest
      exact (List.mem_insertionSort _).mp hmem
    refine ⟨w, (List.mem_filter.mp hwf).1,
      of_decide_eq_true (List.mem_filter.mp hwf).2, ?_, rfl, rfl, rfl⟩
    intro w2 hw2 hw2site
    have hw2f : w2 ∈ summary.filter (fun w3 => decide (w3.site_name = site)) :=
      List.mem_filter.mpr ⟨hw2, decide_eq_true hw2site⟩
    have hw2s : w2 ∈ w :: rest := by
      rw [← hsort]
      exact (List.mem_insertionSort _).mpr hw2f
    rcases List.mem_cons.mp hw2s with h | h
    · rw [h]
    · have hsorted : List.Sorted startLEP (w :: rest) := by
        rw [← hsort]
        exact List.sorted_insertionSort startLEP _
      exact List.rel_of_sorted_cons hsorted w2 h

/-- Witness for C2 (amended) on a one-window summary. -/
theorem c2_earliest_start_selected_witness :
    ∃ w, w ∈ ([⟨"A", 0, 3600, 2, none, none, none, "Temperature", 1⟩] :
        List WindowRow) ∧
      w.site_name = "A" ∧
      (∀ w2 ∈ ([⟨"A", 0, 3600, 2, none, none, none, "Temperature", 1⟩] :
        List WindowRow), w2.site_name = "A" → w.start_time ≤ w2.start_time) ∧
      (1 : Nat) = w.risk_score ∧
      (some 0 : Option Int) = some w.start_time ∧
      (some 0 : Option Int) = some (max 0 ((w.start_time - 7200).fdiv 3600)) :=
  c2_earliest_start_selected
    [⟨"A", 0, 3600, 2, none, none, none, "Temperature", 1⟩] 7200
    ⟨"A", 1, some 0, some 0⟩ (by decide)

/-- C9 counterexample: a run over site "A" (one breaching reading) and site
"B" (empty reading series).  The run succeeds and produces "A"'s snapshot,
but "B" gets no snapshot row at all — the claimed neutral snapshot
`("B", 0, null, null)` is absent, because the snapshot loop iterates only
sites present in the window summary. -/
theorem c9_no_snapshot_for_empty_site :
    (analyze_risk_windows
        [⟨"A", [⟨0, some 101, some 5, some 30⟩], ⟨100, 20, 15⟩⟩,
          ⟨"B", [], ⟨100, 20, 15⟩⟩] 0).2.2 = [⟨"A", 1, some 0, some 0⟩] ∧
    (⟨"B", 0, none, none⟩ : SnapRow) ∉
      (analyze_risk_windows
        [⟨"A", [⟨0, some 101, some 5, some 30⟩], ⟨100, 20, 15⟩⟩,
          ⟨"B", [], ⟨100, 20, 15⟩⟩] 0).2.2 := by
  constructor
  · decide
  · decide

/-- C9 (amended): sites with an empty reading series are skipped without
affecting anything else — the run's combined rows, window table and
snapshots are identical to those of the run restricted to the sites with
readings; in particular an empty site contributes no windows and no
snapshot row. -/
theorem c9_empty_sites_ignored (sites : List SiteInput) (now : Int) :
    analyze_risk_windows sites now =
      analyze_risk_windows (sites.filter (fun s => decide (s.readings ≠ [])))
        now := by
  unfold analyze_risk_windows
  rw [List.filter_filter]
  simp only [Bool.and_self]

end CoolingWatchdog
